import Mathlib

/-!
Verification of the `ChartGenerator` core (`charts.py`) of the NLP chart
generator repository.

The Python class is shallowly embedded: the mutable `self.data` /
`self.column_info` pair becomes an explicit `ChartGenerator` record, pandas
DataFrames become `DataFrame` (an ordered list of named, typed columns plus a
row count), Python exceptions become an explicit `ChartError` sum carried in
`Except` (or in the returned pair, for methods whose caller observes the
post-state), and `re.search` of the whole-word patterns built in
`determine_chart_type` / `extract_columns` becomes an executable search over
character lists.  ASCII approximations: `str.lower` is modelled on the basic
latin range (exactly what `Char.toLower` does) and the regex word class `\w`
is modelled as ASCII alphanumerics plus underscore; all concrete inputs used
below are ASCII, where the model agrees with Python exactly.
-/

namespace Charts

/-- A regex word character (`\w`), ASCII fragment: letters, digits, underscore. -/
def wordChar (c : Char) : Bool :=
  c.isAlphanum || c == '_'

/-- Python `str.lower()` character by character (basic latin range, as in the data). -/
def lowerChars (l : List Char) : List Char :=
  l.map Char.toLower

/-- Whether the character just before position `i` is a word character
(positions outside the string count as non-word, like the ends in a regex). -/
def prevIsWord (l : List Char) (i : Nat) : Bool :=
  match i with
  | 0 => false
  | j + 1 =>
    match l.get? j with
    | some c => wordChar c
    | none => false

/-- Whether the character at position `i` is a word character. -/
def wordCharAt (l : List Char) (i : Nat) : Bool :=
  match l.get? i with
  | some c => wordChar c
  | none => false

/-- The regex word-boundary assertion `\b` at position `i` of `l`. -/
def boundaryAt (l : List Char) (i : Nat) : Bool :=
  prevIsWord l i != wordCharAt l i

/-- The literal pattern `p` matches `l` at position `i`. -/
def matchesAt (l p : List Char) (i : Nat) : Bool :=
  (l.drop i).take p.length == p

/-- Embeds `re.search(r'\b' + escaped(p) + r'\b', l) is not None`: some position of
`l` starts a whole-word occurrence of the literal pattern `p`. -/
def wholeWordSearch (p l : List Char) : Bool :=
  (List.range (l.length + 1)).any fun i =>
    boundaryAt l i && matchesAt l p i && boundaryAt l (i + p.length)

/-- Position of the first whole-word occurrence of `p` in `l`, if any
(used only to state facts about concrete requests). -/
def firstWholeWordPos (p l : List Char) : Option Nat :=
  (List.range (l.length + 1)).find? fun i =>
    boundaryAt l i && matchesAt l p i && boundaryAt l (i + p.length)

/-- Embeds `str.endswith(suffix)`. -/
def endsWithS (s suffix : String) : Bool :=
  List.isSuffixOf suffix.data s.data

/-- One pandas column: its name, dtype label, numeric-dtype flag, and the
value in its first row (meaningful only when the frame has rows). -/
structure Column where
  name : String
  dtype : String
  numeric : Bool
  firstVal : String
  deriving DecidableEq

/-- A loaded pandas DataFrame: ordered named columns and a uniform row count. -/
structure DataFrame where
  cols : List Column
  nrows : Nat
  deriving DecidableEq

/-- One entry of `self.column_info`: dtype label, sample value, numeric flag. -/
structure ColInfo where
  dtype : String
  sample : Option String
  numeric : Bool
  deriving DecidableEq

/-- The Python exceptions the class can raise, by raise site. -/
inductive ChartError where
  /-- Python `ValueError("Error loading file: ...")` from the `except` wrapper of
  `load_data` / `load_data_from_upload`. -/
  | dataLoadError
  /-- Python `ValueError("No data loaded. Please load data first.")` in `generate_chart`. -/
  | noData
  /-- Python `KeyError` from `templates[chart_type]` in `generate_chart_code`. -/
  | unsupportedChartType
  /-- Python `KeyError` from `self.column_info[col]` in `extract_columns`. -/
  | keyError
  /-- Python `IndexError` from `self.data.columns[0]` in `extract_columns`. -/
  | indexError
  /-- Python `AttributeError` from touching `.columns` / `.head` on `None`. -/
  | attributeError
  deriving DecidableEq

/-- The `ChartGenerator` instance state: `self.data` and `self.column_info`
(the dict is kept as the ordered association list its insertions build). -/
structure ChartGenerator where
  data : Option DataFrame
  column_info : List (String × ColInfo)
  deriving DecidableEq

/-- Embeds `ChartGenerator.__init__`: `self.data = None`, `self.column_info = {}`. -/
def ChartGenerator.init : ChartGenerator :=
  { data := none, column_info := [] }

/-- The `column_info` entry `_analyze_columns` records for one column:
dtype label, `iloc[0]` when the frame has rows (else `None`), numeric flag. -/
def colInfoOf (nrows : Nat) (c : Column) : ColInfo :=
  { dtype := c.dtype
    sample := if 0 < nrows then some c.firstVal else none
    numeric := c.numeric }

/-- Embeds `_analyze_columns`: rebuild `self.column_info` from the current frame. -/
def analyze_cols (df : DataFrame) : List (String × ColInfo) :=
  df.cols.map fun c => (c.name, colInfoOf df.nrows c)

/-- Dict lookup `self.column_info[name]`.  The dict is built by successive
insertions, so a later entry for the same key overwrites an earlier one:
lookup finds the last matching entry. -/
def lookup_info (info : List (String × ColInfo)) (name : String) : Option ColInfo :=
  (info.reverse.find? fun p => p.1 == name).map Prod.snd

/-- Embeds `[col for col in self.data.columns if self.column_info[col]['numeric']]`:
`none` models the `KeyError` raised when a column is missing from the dict. -/
def numeric_cols_of (info : List (String × ColInfo)) : List Column → Option (List Column)
  | [] => some []
  | c :: rest =>
    match lookup_info info c.name with
    | none => none
    | some ci =>
      match numeric_cols_of info rest with
      | none => none
      | some r => some (if ci.numeric then c :: r else r)

/-- Embeds `re.search(r'\b' + re.escape(col.lower()) + r'\b', request.lower())`:
the column's name occurs whole-word, case-insensitively, in the request. -/
def colMatches (c : Column) (request : String) : Bool :=
  wholeWordSearch (lowerChars c.name.data) (lowerChars request.data)

/-- Embeds `determine_chart_type`: first whole-word keyword group to match the
lowercased request wins; no match defaults to `'bar'`. -/
def determine_chart_type (request : String) : String :=
  let r := lowerChars request.data
  if wholeWordSearch "pie".data r then "pie"
  else if wholeWordSearch "bar".data r || wholeWordSearch "column".data r then "bar"
  else if wholeWordSearch "line".data r || wholeWordSearch "trend".data r then "line"
  else if wholeWordSearch "scatter".data r || wholeWordSearch "point".data r then "scatter"
  else if wholeWordSearch "histogram".data r || wholeWordSearch "distribution".data r then "histogram"
  else "bar"

/-- The classifier rule table exactly as the specification lists it:
keyword group, in priority order, with the chart type it selects. -/
def chartRules : List (List String × String) :=
  [(["pie"], "pie"),
   (["bar", "column"], "bar"),
   (["line", "trend"], "line"),
   (["scatter", "point"], "scatter"),
   (["histogram", "distribution"], "histogram")]

/-- First rule of `rules` one of whose keywords occurs whole-word in the
(lowercased) request, if any. -/
def firstRule (rules : List (List String × String)) (lowered : List Char) : Option String :=
  match rules with
  | [] => none
  | (kws, ct) :: rest =>
    if kws.any (fun k => wholeWordSearch k.data lowered) then some ct
    else firstRule rest lowered

/-- Follows the claim's words (refinement counterpart of
`determine_chart_type`): the chart type of the first rule with a whole-word,
case-insensitive keyword match, in the fixed priority order
pie > bar/column > line/trend > scatter/point > histogram/distribution,
defaulting to `'bar'` when no rule matches. -/
def classifierSpecC1 (request : String) : String :=
  (firstRule chartRules (lowerChars request.data)).getD "bar"

/-- Body of `extract_columns` once `self.data` is known to be a frame. -/
def extract_columns_df (info : List (String × ColInfo)) (df : DataFrame)
    (request : String) : Except ChartError (String × String) :=
  match df.cols.filter (fun c => colMatches c request) with
  | c0 :: c1 :: _ => .ok (c0.name, c1.name)
  | [c0] =>
    match numeric_cols_of info df.cols with
    | none => .error .keyError
    | some nc => .ok (c0.name, (nc.head?.getD c0).name)
  | [] =>
    match numeric_cols_of info df.cols with
    | none => .error .keyError
    | some nc =>
      match nc with
      | n0 :: _ :: _ =>
        match df.cols with
        | c0 :: _ => .ok (c0.name, n0.name)
        | [] => .error .indexError
      | _ =>
        match df.cols with
        | [] => .error .indexError
        | [c0] => .ok (c0.name, c0.name)
        | c0 :: c1 :: _ => .ok (c0.name, c1.name)

/-- Embeds `extract_columns`: collect the columns whose names occur whole-word in the
request (in the frame's column order), then apply the three-branch default
logic of the source. -/
def extract_columns (g : ChartGenerator) (request : String) :
    Except ChartError (String × String) :=
  match g.data with
  | none => .error .attributeError
  | some df => extract_columns_df g.column_info df request

/-- The `'bar'` template of `generate_chart_code`, after `.format(...)` has
substituted `x`, `y`, `title`, `x_label`, `y_label` (the source passes the
selected columns for the labels and the raw request for the title). -/
def barTemplate (x y title xl yl : String) : String :=
  "fig, ax = plt.subplots(figsize=(10,6))\nax.bar(data['" ++ x ++ "'], data['" ++ y ++
  "'])\nax.set_title('" ++ title ++ "')\nax.set_xlabel('" ++ xl ++ "')\nax.set_ylabel('" ++ yl ++
  "')\nplt.xticks(rotation=45)\nplt.tight_layout()\n# Removed the return statement"

/-- The `'pie'` template of `generate_chart_code` after substitution. -/
def pieTemplate (x y title : String) : String :=
  "fig, ax = plt.subplots(figsize=(8,8))\ndata.groupby('" ++ x ++ "')['" ++ y ++
  "'].sum().plot.pie(autopct='%1.1f%%', ax=ax)\nax.set_title('" ++ title ++
  "')\nax.set_ylabel('')\n# Removed the return statement"

/-- The `'line'` template of `generate_chart_code` after substitution. -/
def lineTemplate (x y title xl yl : String) : String :=
  "fig, ax = plt.subplots(figsize=(10,6))\nax.plot(data['" ++ x ++ "'], data['" ++ y ++
  "'])\nax.set_title('" ++ title ++ "')\nax.set_xlabel('" ++ xl ++ "')\nax.set_ylabel('" ++ yl ++
  "')\nax.grid(True)\n# Removed the return statement"

/-- Embeds `generate_chart_code`: extract the columns, then instantiate the template
for the chart type; a type outside the dict (`'scatter'`, `'histogram'`, or
anything else) raises `KeyError`, modelled as `unsupportedChartType`. -/
def generate_chart_code (g : ChartGenerator) (chart_type request : String) :
    Except ChartError String :=
  match extract_columns g request with
  | .error e => .error e
  | .ok (x, y) =>
    match chart_type with
    | "bar" => .ok (barTemplate x y request x y)
    | "pie" => .ok (pieTemplate x y request)
    | "line" => .ok (lineTemplate x y request x y)
    | _ => .error .unsupportedChartType

/-- A matplotlib figure, identified by the script that produced it. -/
structure Fig where
  script : String
  deriving DecidableEq

/-- The opening characters shared by every generated template: the statement
that binds the variable `fig`. -/
def figBinder : List Char :=
  "fig, ax = plt.subplots".data

/-- Modelled from the spec: the Chart Executor (`exec(code, ...)` followed by
`local_vars.get('fig', None)`) runs the generated script with `data` and
`plt` bound and then reads the variable `fig` from the local namespace.  The
matplotlib backend is outside this repository; execution is modelled as
yielding a figure exactly when the script opens with the `fig`-binding
statement every template starts with, and `None` otherwise. -/
def execFig (code : String) : Option Fig :=
  if List.isPrefixOf figBinder code.data then some ⟨code⟩ else none

/-- Embeds `generate_chart`: guard on `self.data`, classify, generate code, execute,
and read `fig` back.  The method assigns no attribute of `self`, so the
generator state is returned unchanged alongside the result. -/
def generate_chart (g : ChartGenerator) (request : String) :
    ChartGenerator × Except ChartError (Option Fig) :=
  match g.data with
  | none => (g, .error .noData)
  | some _ =>
    match generate_chart_code g (determine_chart_type request) request with
    | .error e => (g, .error e)
    | .ok code => (g, .ok (execFig code))

/-- The tail every load shares: `self._analyze_columns()` inside the `try`.
`_analyze_columns` first resets `self.column_info = {}` and then iterates
`self.data.columns`; with no frame loaded that access raises
`AttributeError`, which the `except` wrapper turns into
`ValueError("Error loading file: ...")` (`dataLoadError`). -/
def load_analyze_step (g : ChartGenerator) : ChartGenerator × Except ChartError Bool :=
  match g.data with
  | none => ({ g with column_info := [] }, .error .dataLoadError)
  | some df => ({ g with column_info := analyze_cols df }, .ok true)

/-- Embeds `load_data`: dispatch on the filename suffix.  Parsing is external
(pandas); `parseCSV` / `parseExcel` are the outcome of `pd.read_csv` /
`pd.read_excel` on this source, `none` meaning the parser raised (wrapped
into `dataLoadError`, with `self.data` left untouched).  A suffix matching
no branch leaves `self.data` as it was and falls through to the analyze
step. -/
def load_data (g : ChartGenerator) (file_path : String)
    (parseCSV parseExcel : Option DataFrame) : ChartGenerator × Except ChartError Bool :=
  if endsWithS file_path ".csv" then
    match parseCSV with
    | none => (g, .error .dataLoadError)
    | some df => load_analyze_step { g with data := some df }
  else if endsWithS file_path ".xls" || endsWithS file_path ".xlsx" then
    match parseExcel with
    | none => (g, .error .dataLoadError)
    | some df => load_analyze_step { g with data := some df }
  else
    load_analyze_step g

/-- Embeds `load_data_from_upload`: same body as `load_data`, dispatching on the
upload handle's `name` attribute. -/
def load_data_from_upload (g : ChartGenerator) (uploaded_name : String)
    (parseCSV parseExcel : Option DataFrame) : ChartGenerator × Except ChartError Bool :=
  if endsWithS uploaded_name ".csv" then
    match parseCSV with
    | none => (g, .error .dataLoadError)
    | some df => load_analyze_step { g with data := some df }
  else if endsWithS uploaded_name ".xls" || endsWithS uploaded_name ".xlsx" then
    match parseExcel with
    | none => (g, .error .dataLoadError)
    | some df => load_analyze_step { g with data := some df }
  else
    load_analyze_step g

/-- Embeds `get_column_info`: returns `self.column_info` as is. -/
def get_column_info (g : ChartGenerator) : List (String × ColInfo) :=
  g.column_info

/-- Embeds `get_data_preview`: `self.data.head(n_rows)`.  On a fresh generator
`self.data` is `None` and `.head` raises `AttributeError`; otherwise the
first `min n_rows nrows` rows are returned. -/
def get_data_preview (g : ChartGenerator) (n_rows : Nat) : Except ChartError DataFrame :=
  match g.data with
  | none => .error .attributeError
  | some df => .ok { df with nrows := min df.nrows n_rows }

/-- Concrete data used in witnesses and counterexamples: a categorical
`Region` column. -/
def colRegion : Column :=
  { name := "Region", dtype := "object", numeric := false, firstVal := "East" }

/-- A numeric `Sales` column. -/
def colSales : Column :=
  { name := "Sales", dtype := "int64", numeric := true, firstVal := "100" }

/-- A numeric `Profit` column. -/
def colProfit : Column :=
  { name := "Profit", dtype := "int64", numeric := true, firstVal := "20" }

/-- A two-column frame `[Region, Sales]` with three rows. -/
def dfRS : DataFrame := { cols := [colRegion, colSales], nrows := 3 }

/-- A generator that has loaded `dfRS` (so its column info is analyzed). -/
def gRS : ChartGenerator := { data := some dfRS, column_info := analyze_cols dfRS }

/-- A two-column all-numeric frame `[Sales, Profit]`. -/
def dfSP : DataFrame := { cols := [colSales, colProfit], nrows := 3 }

/-- A generator that has loaded `dfSP`. -/
def gSP : ChartGenerator := { data := some dfSP, column_info := analyze_cols dfSP }

/-- A pathological frame with no columns at all. -/
def dfEmpty : DataFrame := { cols := [], nrows := 0 }

/-- A generator holding the zero-column frame. -/
def gEmpty : ChartGenerator := { data := some dfEmpty, column_info := analyze_cols dfEmpty }

/-- A one-column frame. -/
def dfOne : DataFrame := { cols := [colSales], nrows := 2 }

/-- A generator that has loaded the one-column frame. -/
def gOne : ChartGenerator := { data := some dfOne, column_info := analyze_cols dfOne }

/-! ### Helper lemmas -/

/-- Every column of the analyzed frame has an entry in the analyzer's dict. -/
theorem lookup_analyze_isSome (df : DataFrame) (c : Column) (hc : c ∈ df.cols) :
    ∃ ci, lookup_info (analyze_cols df) c.name = some ci := by
  have h : ((analyze_cols df).reverse.find? fun p => p.1 == c.name).isSome := by
    rw [List.find?_isSome]
    exact ⟨(c.name, colInfoOf df.nrows c),
      by rw [List.mem_reverse]; exact List.mem_map.2 ⟨c, hc, rfl⟩,
      by simp⟩
  obtain ⟨p, hp⟩ := Option.isSome_iff_exists.1 h
  exact ⟨p.2, by unfold lookup_info; rw [hp]; rfl⟩

/-- If every column has a dict entry, the numeric-column comprehension does
not raise. -/
theorem numeric_cols_of_isSome (info : List (String × ColInfo)) :
    ∀ cols : List Column, (∀ c ∈ cols, ∃ ci, lookup_info info c.name = some ci) →
      ∃ nc, numeric_cols_of info cols = some nc
  | [], _ => ⟨[], rfl⟩
  | c :: rest, h => by
    obtain ⟨ci, hci⟩ := h c (List.mem_cons_self c rest)
    obtain ⟨nc, hnc⟩ :=
      numeric_cols_of_isSome info rest fun c' hc' => h c' (List.mem_cons_of_mem _ hc')
    exact ⟨if ci.numeric then c :: nc else nc, by simp only [numeric_cols_of, hci, hnc]⟩

/-- The numeric-column comprehension only selects columns of the frame. -/
theorem numeric_cols_of_mem (info : List (String × ColInfo)) :
    ∀ (cols nc : List Column), numeric_cols_of info cols = some nc →
      ∀ x ∈ nc, x ∈ cols
  | [], nc, h, x, hx => by
    simp only [numeric_cols_of, Option.some.injEq] at h
    subst h
    exact absurd hx (List.not_mem_nil x)
  | c :: rest, nc, h, x, hx => by
    simp only [numeric_cols_of] at h
    cases hci : lookup_info info c.name with
    | none => rw [hci] at h; exact absurd h (by simp)
    | some ci =>
      rw [hci] at h
      cases hrec : numeric_cols_of info rest with
      | none => rw [hrec] at h; exact absurd h (by simp)
      | some r =>
        rw [hrec] at h
        simp only [Option.some.injEq] at h
        subst h
        by_cases hb : ci.numeric
        · rw [if_pos hb] at hx
          rcases List.mem_cons.1 hx with rfl | hxr
          · exact List.mem_cons_self _ _
          · exact List.mem_cons_of_mem _ (numeric_cols_of_mem info rest r hrec x hxr)
        · rw [if_neg hb] at hx
          exact List.mem_cons_of_mem _ (numeric_cols_of_mem info rest r hrec x hx)

/-- With pairwise-distinct column names the dict lookup finds exactly the
entry the analyzer wrote for that column. -/
theorem find_in_rev_map (g : Column → ColInfo) :
    ∀ (cols : List Column) (c : Column), (cols.map Column.name).Nodup → c ∈ cols →
      ((cols.map fun d => (d.name, g d)).reverse.find? fun p => p.1 == c.name) =
        some (c.name, g c)
  | [], c, _, hc => absurd hc (List.not_mem_nil c)
  | a :: t, c, hnd, hc => by
    rw [List.map_cons, List.reverse_cons, List.find?_append]
    have hnd' : (∀ x ∈ t, ¬x.name = a.name) ∧ (t.map Column.name).Nodup := by
      simpa using hnd
    rcases List.mem_cons.1 hc with rfl | hct
    · have hnone :
          ((t.map fun d => (d.name, g d)).reverse.find? fun p => p.1 == c.name) = none := by
        rw [List.find?_eq_none]
        intro x hx
        rw [List.mem_reverse, List.mem_map] at hx
        obtain ⟨d, hd, rfl⟩ := hx
        simp only [beq_iff_eq]
        exact hnd'.1 d hd
      rw [hnone]
      simp
    · rw [find_in_rev_map g t c hnd'.2 hct]
      rfl

/-- `lookup_info` after analysis, under distinct column names. -/
theorem lookup_analyze_nodup (df : DataFrame) (c : Column)
    (hnd : (df.cols.map Column.name).Nodup) (hc : c ∈ df.cols) :
    lookup_info (analyze_cols df) c.name = some (colInfoOf df.nrows c) := by
  unfold lookup_info analyze_cols
  rw [find_in_rev_map (colInfoOf df.nrows) df.cols c hnd hc]
  rfl

/-- When every lookup reports the column's own numeric flag, the
comprehension is exactly the filter on that flag. -/
theorem numeric_cols_of_eq_filter (info : List (String × ColInfo)) :
    ∀ cols : List Column,
      (∀ c ∈ cols, ∃ ci, lookup_info info c.name = some ci ∧ ci.numeric = c.numeric) →
      numeric_cols_of info cols = some (cols.filter fun c => c.numeric)
  | [], _ => rfl
  | c :: rest, h => by
    obtain ⟨ci, hci, hnum⟩ := h c (List.mem_cons_self c rest)
    have IH :=
      numeric_cols_of_eq_filter info rest fun c' hc' => h c' (List.mem_cons_of_mem _ hc')
    simp only [numeric_cols_of, hci, IH, List.filter_cons, hnum]

/-- With every column present in the dict and at least one column, the body
of `extract_columns` reaches a `return`. -/
theorem extract_df_isOk (info : List (String × ColInfo)) (df : DataFrame) (request : String)
    (hlook : ∀ c ∈ df.cols, ∃ ci, lookup_info info c.name = some ci)
    (hcols : df.cols ≠ []) :
    (extract_columns_df info df request).isOk = true := by
  obtain ⟨nc, hnc⟩ := numeric_cols_of_isSome info df.cols hlook
  simp only [extract_columns_df, hnc]
  split
  any_goals rfl
  all_goals
    rcases nc with _ | ⟨n0, _ | ⟨n1, nt⟩⟩ <;>
      rcases hcc : df.cols with _ | ⟨d0, _ | ⟨d1, dt⟩⟩ <;>
        first
          | rfl
          | exact absurd hcc hcols

/-- A generator in a properly loaded state (frame present, info freshly
analyzed, at least one column) never raises from `extract_columns`. -/
theorem extract_ok_of_loaded (g : ChartGenerator) (df : DataFrame) (request : String)
    (hdata : g.data = some df) (hinfo : g.column_info = analyze_cols df)
    (hcols : df.cols ≠ []) :
    ∃ x y, extract_columns g request = .ok (x, y) := by
  have hok : (extract_columns g request).isOk = true := by
    have hlook : ∀ c ∈ df.cols, ∃ ci, lookup_info g.column_info c.name = some ci := by
      intro c hc
      rw [hinfo]
      exact lookup_analyze_isSome df c hc
    simp only [extract_columns, hdata]
    exact extract_df_isOk g.column_info df request hlook hcols
  cases h : extract_columns g request with
  | ok p =>
    obtain ⟨x, y⟩ := p
    exact ⟨x, y, rfl⟩
  | error e => rw [h] at hok; cases hok

/-- Every instantiated bar template opens with the `fig`-binding statement,
so the modelled executor yields its figure. -/
theorem execFig_barTemplate (x y t xl yl : String) :
    execFig (barTemplate x y t xl yl) = some ⟨barTemplate x y t xl yl⟩ := by
  have h : List.isPrefixOf figBinder (barTemplate x y t xl yl).data = true := by
    rw [ List.isPrefixOf_iff_prefix]
    unfold barTemplate figBinder
    simp only [String.data_append, List.append_assoc]
    exact List.IsPrefix.trans (by decide) (List.prefix_append _ _)
  simp only [execFig, h, if_true]

/-- Every instantiated pie template opens with the `fig`-binding statement. -/
theorem execFig_pieTemplate (x y t : String) :
    execFig (pieTemplate x y t) = some ⟨pieTemplate x y t⟩ := by
  have h : List.isPrefixOf figBinder (pieTemplate x y t).data = true := by
    rw [ List.isPrefixOf_iff_prefix]
    unfold pieTemplate figBinder
    simp only [String.data_append, List.append_assoc]
    exact List.IsPrefix.trans (by decide) (List.prefix_append _ _)
  simp only [execFig, h, if_true]

/-- Every instantiated line template opens with the `fig`-binding statement. -/
theorem execFig_lineTemplate (x y t xl yl : String) :
    execFig (lineTemplate x y t xl yl) = some ⟨lineTemplate x y t xl yl⟩ := by
  have h : List.isPrefixOf figBinder (lineTemplate x y t xl yl).data = true := by
    rw [ List.isPrefixOf_iff_prefix]
    unfold lineTemplate figBinder
    simp only [String.data_append, List.append_assoc]
    exact List.IsPrefix.trans (by decide) (List.prefix_append _ _)
  simp only [execFig, h, if_true]

/-! ### Claims -/

/-- C1: for every request string, `determine_chart_type` returns exactly one
of pie, bar, line, scatter, histogram, and it is the chart type selected by
the first whole-word, case-insensitive keyword match in the fixed priority
order pie > bar/column > line/trend > scatter/point > histogram/distribution
(the rule-table reading `classifierSpecC1`), with bar as the default when no
rule matches; a keyword inside a longer word does not match (`"piece"` does
not trigger pie), matching ignores case, and pie wins over later groups. -/
theorem claimC1_classifier :
    (∀ request : String, determine_chart_type request = classifierSpecC1 request) ∧
    (∀ request : String,
      determine_chart_type request ∈ ["pie", "bar", "line", "scatter", "histogram"]) ∧
    determine_chart_type "give me a piece of the data" = "bar" ∧
    determine_chart_type "PIE chart of sales" = "pie" ∧
    determine_chart_type "pie or bar or line" = "pie" ∧
    determine_chart_type "scatter the line" = "line" ∧
    determine_chart_type "what is this" = "bar" := by
  refine ⟨fun request => ?_, fun request => ?_, rfl, rfl, rfl, rfl, rfl⟩
  · simp only [determine_chart_type, classifierSpecC1, chartRules, firstRule,
      List.any_cons, List.any_nil, Bool.or_false, apply_ite (fun o : Option String => o.getD "bar"),
      Option.getD_some, Option.getD_none]
  · simp only [determine_chart_type]
    split_ifs <;> simp

/-- C2 (amended): with at least two column names occurring whole-word in the
request, `extract_columns` returns the first two matched columns **in the
Dataset's declared column order** (the order of the comprehension over
`self.data.columns`), not in first-occurrence order within the request. -/
theorem claimC2_first_two_dataset_order (g : ChartGenerator) (df : DataFrame)
    (request : String) (c0 c1 : Column) (rest : List Column)
    (hdata : g.data = some df)
    (hfound : df.cols.filter (fun c => colMatches c request) = c0 :: c1 :: rest) :
    extract_columns g request = .ok (c0.name, c1.name) := by
  simp only [extract_columns, hdata, extract_columns_df, hfound]

/-- C2 witness: on the frame `[Region, Sales]` and a request naming both
columns, the first two matches in dataset order are returned. -/
theorem claimC2_witness :
    extract_columns gRS "plot region and sales" = Except.ok ("Region", "Sales") :=
  claimC2_first_two_dataset_order gRS dfRS "plot region and sales" colRegion colSales []
    rfl (by rfl)

/-- C2 counterexample: in `"show sales by region"` the whole word `sales`
occurs at position 5 and `region` at position 14, so the claimed
first-occurrence order is (Sales, Region); the code returns
(Region, Sales) — the dataset order — instead. -/
theorem claimC2_counterexample :
    extract_columns gRS "show sales by region" = Except.ok ("Region", "Sales") ∧
    extract_columns gRS "show sales by region" ≠ Except.ok ("Sales", "Region") ∧
    colMatches colSales "show sales by region" = true ∧
    colMatches colRegion "show sales by region" = true ∧
    firstWholeWordPos (lowerChars colSales.name.data)
      (lowerChars "show sales by region".data) = some 5 ∧
    firstWholeWordPos (lowerChars colRegion.name.data)
      (lowerChars "show sales by region".data) = some 14 := by
  refine ⟨rfl, ?_, rfl, rfl, rfl, rfl⟩
  intro h
  have h2 : (Except.ok (("Region", "Sales") : String × String) :
      Except ChartError (String × String)) = Except.ok ("Sales", "Region") := h
  have h3 := Except.ok.inj h2
  simp at h3

/-- C3 (amended): with exactly one column name occurring whole-word in the
request, `extract_columns` returns that column as x and, as y, the first
numeric column of the frame — which may be x itself — when any numeric
column exists, else the matched column again (`numeric_cols[0] if
numeric_cols else found_cols[0]`; no distinctness requirement). -/
theorem claimC3_single_match (g : ChartGenerator) (df : DataFrame) (c : Column)
    (request : String)
    (hdata : g.data = some df) (hinfo : g.column_info = analyze_cols df)
    (hnd : (df.cols.map Column.name).Nodup)
    (hfound : df.cols.filter (fun d => colMatches d request) = [c]) :
    extract_columns g request =
      .ok (c.name, (((df.cols.filter fun d => d.numeric).head?).getD c).name) := by
  have hnc : numeric_cols_of g.column_info df.cols =
      some (df.cols.filter fun d => d.numeric) := by
    rw [hinfo]
    exact numeric_cols_of_eq_filter (analyze_cols df) df.cols fun d hd =>
      ⟨colInfoOf df.nrows d, lookup_analyze_nodup df d hnd hd, rfl⟩
  simp only [extract_columns, hdata, extract_columns_df, hfound, hnc]

/-- C3 witness: frame `[Region, Sales]`, request naming only `sales`: the
first numeric column is `Sales` itself, so (Sales, Sales) is returned. -/
theorem claimC3_witness :
    extract_columns gRS "show sales" = Except.ok ("Sales", "Sales") :=
  claimC3_single_match gRS dfRS colSales "show sales" rfl rfl (by decide) (by rfl)

/-- C3 counterexample: frame `[Sales, Profit]`, both numeric, request
`"show sales"` matches exactly `Sales`.  A numeric column distinct from x
exists (`Profit`), so the claim demands (Sales, Profit); the code takes
`numeric_cols[0] = Sales` and returns (Sales, Sales). -/
theorem claimC3_counterexample :
    extract_columns gSP "show sales" = Except.ok ("Sales", "Sales") ∧
    extract_columns gSP "show sales" ≠ Except.ok ("Sales", "Profit") ∧
    dfSP.cols.filter (fun d => colMatches d "show sales") = [colSales] ∧
    colProfit ∈ dfSP.cols ∧ colProfit.numeric = true ∧
    colProfit.name ≠ colSales.name := by
  refine ⟨rfl, ?_, rfl, by decide, rfl, by decide⟩
  intro h
  have h2 : (Except.ok (("Sales", "Sales") : String × String) :
      Except ChartError (String × String)) = Except.ok ("Sales", "Profit") := h
  have h3 := Except.ok.inj h2
  simp at h3

/-- C4 (amended): `extract_columns` on a loaded frame with exactly one
column never raises and returns that sole column as both x and y; on a
frame with zero columns the claim's no-crash guarantee fails: the code
raises `IndexError` at `self.data.columns[0]`. -/
theorem claimC4_small_frames (g : ChartGenerator) (df : DataFrame) (request : String)
    (hdata : g.data = some df) (hinfo : g.column_info = analyze_cols df) :
    (df.cols = [] → extract_columns g request = .error .indexError) ∧
    ∀ c, df.cols = [c] → extract_columns g request = .ok (c.name, c.name) := by
  constructor
  · intro hnil
    have hnc : numeric_cols_of g.column_info [] = some [] := rfl
    simp only [extract_columns, hdata, extract_columns_df, hnil, List.filter_nil, hnc]
  · intro c hone
    have hnd : (df.cols.map Column.name).Nodup := by
      rw [hone]
      simp
    have hnc : numeric_cols_of g.column_info df.cols =
        some (df.cols.filter fun d => d.numeric) := by
      rw [hinfo]
      exact numeric_cols_of_eq_filter (analyze_cols df) df.cols fun d hd =>
        ⟨colInfoOf df.nrows d, lookup_analyze_nodup df d hnd hd, rfl⟩
    rw [hone] at hnc
    simp only [extract_columns, hdata, extract_columns_df, hone, hnc, List.filter_cons,
      List.filter_nil]
    cases hm : colMatches c request <;> cases hb : c.numeric <;>
      simp [hm, hb]

/-- C4 witness: the one-column generator neither raises nor invents a
second column. -/
theorem claimC4_witness :
    extract_columns gOne "anything at all" = Except.ok ("Sales", "Sales") :=
  (claimC4_small_frames gOne dfOne "anything at all" rfl rfl).2 colSales rfl

/-- C4 counterexample: a loaded zero-column frame makes `extract_columns`
raise (`IndexError`), contradicting the claim that a Dataset with zero or
one column never crashes the selector. -/
theorem claimC4_counterexample :
    gEmpty.data = some dfEmpty ∧ dfEmpty.cols = [] ∧
    extract_columns gEmpty "plot the data" = Except.error ChartError.indexError :=
  ⟨rfl, rfl, rfl⟩

/-- C5 (amended): a load whose filename suffix is none of `.csv`, `.xls`,
`.xlsx` skips both parser branches but still runs `_analyze_columns` inside
the `try`.  With no Dataset loaded yet, that access raises and the call
fails with the wrapped load error, the Dataset staying unset (and the
column info reset to empty); with a Dataset already loaded, the call raises
nothing, keeps the **previous** Dataset (it does not unset it) and merely
re-analyzes it.  In neither case is the claimed behaviour — no error and no
Dataset afterwards — exhibited by both halves at once. -/
theorem claimC5_unrecognized_suffix (g : ChartGenerator) (path : String)
    (pcsv pxl : Option DataFrame)
    (h1 : endsWithS path ".csv" = false) (h2 : endsWithS path ".xls" = false)
    (h3 : endsWithS path ".xlsx" = false) :
    (g.data = none →
      load_data g path pcsv pxl = ({ g with column_info := [] }, .error .dataLoadError) ∧
      load_data_from_upload g path pcsv pxl =
        ({ g with column_info := [] }, .error .dataLoadError)) ∧
    (∀ df, g.data = some df →
      load_data g path pcsv pxl = ({ g with column_info := analyze_cols df }, .ok true) ∧
      load_data_from_upload g path pcsv pxl =
        ({ g with column_info := analyze_cols df }, .ok true)) := by
  constructor
  · intro hnone
    constructor <;>
      simp only [load_data, load_data_from_upload, h1, h2, h3, Bool.or_self,
        Bool.false_eq_true, if_false, load_analyze_step, hnone]
  · intro df hdf
    constructor <;>
      simp only [load_data, load_data_from_upload, h1, h2, h3, Bool.or_self,
        Bool.false_eq_true, if_false, load_analyze_step, hdf]

/-- C5 witness: an unrecognized suffix on a generator that already holds
`dfRS` raises nothing and keeps the old frame. -/
theorem claimC5_witness :
    load_data gRS "notes.md" none none = (gRS, Except.ok true) :=
  ((claimC5_unrecognized_suffix gRS "notes.md" none none rfl rfl rfl).2 dfRS rfl).1

/-- C5 counterexample: loading `"data.txt"` on a fresh generator is not a
silent no-op: the skipped dispatch leaves `self.data = None`, after which
`_analyze_columns` raises and the `except` wrapper re-raises `ValueError`
(`dataLoadError`), contradicting "raises no error". -/
theorem claimC5_counterexample :
    (load_data ChartGenerator.init "data.txt" none none).2 =
      Except.error ChartError.dataLoadError := rfl

/-- C6 (amended): on a loaded generator whose frame has at least one column
(and fresh column info), `generate_chart_code` returns a script for the
chart types bar, pie and line, and fails with the template `KeyError`
(`UnsupportedChartTypeError`) for scatter and histogram.  A loaded
zero-column frame — reachable, e.g. via an empty spreadsheet sheet — is
excluded: there column extraction raises `IndexError` before any template
is consulted, so neither conjunct of the original claim holds. -/
theorem claimC6_templates (g : ChartGenerator) (df : DataFrame)
    (chart_type request : String)
    (hdata : g.data = some df) (hinfo : g.column_info = analyze_cols df)
    (hcols : df.cols ≠ []) :
    ((chart_type = "bar" ∨ chart_type = "pie" ∨ chart_type = "line") →
      ∃ code, generate_chart_code g chart_type request = .ok code) ∧
    ((chart_type = "scatter" ∨ chart_type = "histogram") →
      generate_chart_code g chart_type request = .error .unsupportedChartType) := by
  obtain ⟨x, y, hxy⟩ := extract_ok_of_loaded g df request hdata hinfo hcols
  constructor
  · rintro (rfl | rfl | rfl)
    · exact ⟨barTemplate x y request x y, by simp [generate_chart_code, hxy]⟩
    · exact ⟨pieTemplate x y request, by simp [generate_chart_code, hxy]⟩
    · exact ⟨lineTemplate x y request x y, by simp [generate_chart_code, hxy]⟩
  · rintro (rfl | rfl) <;> simp [generate_chart_code, hxy]

/-- C6 witness: with the loaded `[Region, Sales]` frame, a bar script is
produced and a scatter request for code fails with the template KeyError. -/
theorem claimC6_witness :
    (∃ code, generate_chart_code gRS "bar" "sales by region" = Except.ok code) ∧
    generate_chart_code gRS "scatter" "sales by region" =
      Except.error ChartError.unsupportedChartType :=
  ⟨(claimC6_templates gRS dfRS "bar" "sales by region" rfl rfl (by decide)).1 (Or.inl rfl),
   (claimC6_templates gRS dfRS "scatter" "sales by region" rfl rfl (by decide)).2 (Or.inl rfl)⟩

/-- C6 counterexample: a generator holding a loaded zero-column frame (as an
empty spreadsheet sheet produces) falsifies both halves of the original
claim at once: `generate_chart_code` with chart type `bar` raises
`IndexError` from column extraction instead of returning a script, and with
chart type `scatter` it raises that same `IndexError`, not the template
`KeyError` (`UnsupportedChartTypeError`). -/
theorem claimC6_counterexample :
    gEmpty.data = some dfEmpty ∧
    generate_chart_code gEmpty "bar" "plot the data" =
      Except.error ChartError.indexError ∧
    generate_chart_code gEmpty "scatter" "plot the data" =
      Except.error ChartError.indexError ∧
    generate_chart_code gEmpty "scatter" "plot the data" ≠
      Except.error ChartError.unsupportedChartType := by
  refine ⟨rfl, rfl, rfl, ?_⟩
  intro h
  have h2 : (Except.error ChartError.indexError : Except ChartError String) =
      Except.error ChartError.unsupportedChartType := h
  exact absurd (Except.error.inj h2) (by decide)

/-- C7: `generate_chart` with no Dataset loaded fails with the
no-data `ValueError` (`NoDataError`), and the generator state — `self.data`
and `self.column_info` — is exactly what it was (the method assigns neither;
the returned post-state is the input state). -/
theorem claimC7_no_data (g : ChartGenerator) (request : String) (h : g.data = none) :
    generate_chart g request = (g, .error .noData) := by
  simp only [generate_chart, h]

/-- C7 witness: the fresh generator refuses to generate and is unchanged. -/
theorem claimC7_witness :
    generate_chart ChartGenerator.init "bar chart" =
      (ChartGenerator.init, Except.error ChartError.noData) :=
  claimC7_no_data ChartGenerator.init "bar chart" rfl

/-- C8: on a loaded, non-empty frame with at least one column, a request
classified to bar, pie or line makes `generate_chart` succeed with a
non-null figure (every template binds `fig`, which the executor reads
back). -/
theorem claimC8_roundtrip (g : ChartGenerator) (df : DataFrame) (request : String)
    (hdata : g.data = some df) (hinfo : g.column_info = analyze_cols df)
    (hcols : df.cols ≠ []) (hrows : 0 < df.nrows)
    (hct : determine_chart_type request = "bar" ∨ determine_chart_type request = "pie" ∨
      determine_chart_type request = "line") :
    ∃ fig, (generate_chart g request).2 = .ok (some fig) := by
  obtain ⟨x, y, hxy⟩ := extract_ok_of_loaded g df request hdata hinfo hcols
  rcases hct with h | h | h
  · exact ⟨⟨barTemplate x y request x y⟩, by
      simp [generate_chart, hdata, h, generate_chart_code, hxy, execFig_barTemplate]⟩
  · exact ⟨⟨pieTemplate x y request⟩, by
      simp [generate_chart, hdata, h, generate_chart_code, hxy, execFig_pieTemplate]⟩
  · exact ⟨⟨lineTemplate x y request x y⟩, by
      simp [generate_chart, hdata, h, generate_chart_code, hxy, execFig_lineTemplate]⟩

/-- C8 witness: the loaded `[Region, Sales]` frame and a bar request yield
a figure. -/
theorem claimC8_witness :
    ∃ fig, (generate_chart gRS "bar chart of sales by region").2 = Except.ok (some fig) :=
  claimC8_roundtrip gRS dfRS "bar chart of sales by region" rfl rfl (by decide) (by decide)
    (Or.inl rfl)

/-- Whatever branch returns, both names in a successful `extract_columns`
result are names of columns of the frame. -/
theorem extract_df_mem (info : List (String × ColInfo)) (df : DataFrame)
    (request : String) (x y : String)
    (hok : extract_columns_df info df request = .ok (x, y)) :
    x ∈ df.cols.map Column.name ∧ y ∈ df.cols.map Column.name := by
  unfold extract_columns_df at hok
  rcases hf : df.cols.filter (fun c => colMatches c request) with _ | ⟨c0, _ | ⟨c1, tl⟩⟩
  · -- no match: default branches
    simp only [hf] at hok
    rcases hnc : numeric_cols_of info df.cols with _ | nc
    · rw [hnc] at hok
      exact Except.noConfusion hok
    · rw [hnc] at hok
      rcases nc with _ | ⟨n0, _ | ⟨n1, nt⟩⟩
      · rcases hcc : df.cols with _ | ⟨d0, _ | ⟨d1, dt⟩⟩ <;> rw [hcc] at hok
        · exact Except.noConfusion hok
        · have h2 := Except.ok.inj hok
          rw [Prod.mk.injEq] at h2
          obtain ⟨hx, hy⟩ := h2
          subst hx
          subst hy
          constructor <;> simp
        · have h2 := Except.ok.inj hok
          rw [Prod.mk.injEq] at h2
          obtain ⟨hx, hy⟩ := h2
          subst hx
          subst hy
          constructor <;> simp
      · rcases hcc : df.cols with _ | ⟨d0, _ | ⟨d1, dt⟩⟩ <;> rw [hcc] at hok
        · exact Except.noConfusion hok
        · have h2 := Except.ok.inj hok
          rw [Prod.mk.injEq] at h2
          obtain ⟨hx, hy⟩ := h2
          subst hx
          subst hy
          constructor <;> simp
        · have h2 := Except.ok.inj hok
          rw [Prod.mk.injEq] at h2
          obtain ⟨hx, hy⟩ := h2
          subst hx
          subst hy
          constructor <;> simp
      · rcases hcc : df.cols with _ | ⟨d0, dt⟩ <;> rw [hcc] at hok
        · exact Except.noConfusion hok
        · have h2 := Except.ok.inj hok
          rw [Prod.mk.injEq] at h2
          obtain ⟨hx, hy⟩ := h2
          subst hx
          subst hy
          have hn0 : n0 ∈ df.cols :=
            numeric_cols_of_mem info df.cols _ hnc n0 (List.mem_cons_self _ _)
          refine ⟨by simp, ?_⟩
          exact hcc ▸ List.mem_map_of_mem Column.name hn0
  · -- exactly one match
    simp only [hf] at hok
    have hc0 : c0 ∈ df.cols :=
      List.mem_of_mem_filter (hf ▸ List.mem_cons_self c0 [] : c0 ∈ df.cols.filter _)
    rcases hnc : numeric_cols_of info df.cols with _ | nc
    · rw [hnc] at hok
      exact absurd hok (by simp)
    · rw [hnc] at hok
      obtain ⟨hx, hy⟩ := Prod.mk.injEq .. ▸ Except.ok.inj hok
      subst hx hy
      refine ⟨List.mem_map_of_mem Column.name hc0, ?_⟩
      rcases nc with _ | ⟨n0, nt⟩
      · exact List.mem_map_of_mem Column.name hc0
      · have hn0 : n0 ∈ df.cols :=
          numeric_cols_of_mem info df.cols _ hnc n0 (List.mem_cons_self _ _)
        exact List.mem_map_of_mem Column.name hn0
  · -- two or more matches
    simp only [hf] at hok
    obtain ⟨hx, hy⟩ := Prod.mk.injEq .. ▸ Except.ok.inj hok
    subst hx hy
    have hc0 : c0 ∈ df.cols :=
      List.mem_of_mem_filter (hf ▸ List.mem_cons_self c0 (c1 :: tl) : c0 ∈ df.cols.filter _)
    have hc1 : c1 ∈ df.cols :=
      List.mem_of_mem_filter
        (hf ▸ List.mem_cons_of_mem c0 (List.mem_cons_self c1 tl) : c1 ∈ df.cols.filter _)
    exact ⟨List.mem_map_of_mem Column.name hc0, List.mem_map_of_mem Column.name hc1⟩

/-- C9: on a loaded generator, both components of a successful column
selection name columns present in the current frame — the selector never
fabricates a column name. -/
theorem claimC9_no_fabricated_columns (g : ChartGenerator) (df : DataFrame)
    (request : String) (x y : String)
    (hdata : g.data = some df)
    (hok : extract_columns g request = .ok (x, y)) :
    x ∈ df.cols.map Column.name ∧ y ∈ df.cols.map Column.name := by
  have hok' : extract_columns_df g.column_info df request = .ok (x, y) := by
    rw [← hok]
    simp only [extract_columns, hdata]
  exact extract_df_mem g.column_info df request x y hok'

/-- C9 witness: the pair selected for a concrete request over `[Region,
Sales]` names existing columns. -/
theorem claimC9_witness :
    "Region" ∈ dfRS.cols.map Column.name ∧ "Sales" ∈ dfRS.cols.map Column.name :=
  claimC9_no_fabricated_columns gRS dfRS "plot sales by region" "Region" "Sales" rfl rfl

/-- C10: on the fresh generator (no load yet), `get_data_preview` fails for
every row count — with the attribute error of `None.head`, which is not the
no-data error — while `get_column_info` succeeds and returns the empty
mapping. -/
theorem claimC10_preview_vs_info :
    (∀ n : Nat, get_data_preview ChartGenerator.init n =
      Except.error ChartError.attributeError) ∧
    ChartError.attributeError ≠ ChartError.noData ∧
    get_column_info ChartGenerator.init = [] :=
  ⟨fun _ => rfl, by decide, rfl⟩

end Charts
